import Mathlib

/-!
Shallow embedding of the `librcekunit` authenticated session engine.

The Rust sources embedded here:
- `src/api/auth/utils/cookies.rs` : `parse_set_cookie`, `extract_cookies`
- `src/api/auth/utils/token.rs`   : `extract_csrf_token` and its two helpers
- `src/api/auth/utils/cache.rs`   : `CacheData`, `CacheManager` (save / load /
  clear / update_csrf_token) — the on-disk store is modelled as a single slot
  `Option CacheData`, and `save` additionally as a list of file-system
  operations for the atomicity analysis
- `src/api/auth/loging.rs`        : `LoginClient` (validate_credentials,
  fetch_csrf_token, fetch_csrf_token_with_retry, execute_login_request,
  validate_login_response, build_cache_data, login)
- `src/api/auth/logout.rs`        : `LogoutClient` (load_valid_session,
  execute_logout_request, map_logout_error, logout, logout_with_token)
- `src/api/dashboard/index.rs`, `users.rs`, `pic.rs`, `input_data.rs`,
  `input_user.rs`                 : `ensure_authenticated` session gates
- `src/client.rs`                 : `CekUnitClient::logout` orchestration

Network I/O is modelled by oracles: a function from the attempt index to the
outcome of that attempt (a network-level error, already converted to an
`ApiError` the way `ApiError::from(reqwest::Error)` does, or an HTTP
response).  HTML parsing by the `select` crate is abstracted by the record
`Html`, carrying the raw body together with the attribute values the two CSS
queries of `token.rs` would observe.  Retry loops return, besides their
result, the number of attempts actually made and the list of inter-attempt
sleep durations in milliseconds, so that the retry/backoff contract can be
stated.
-/

/-- Trim of `str::trim` on a list of characters: drop Unicode whitespace from
both ends. -/
def trimChars (cs : List Char) : List Char :=
  ((cs.dropWhile Char.isWhitespace).reverse.dropWhile Char.isWhitespace).reverse

/-- Embedding of `str::trim` on strings, via `trimChars`. -/
def rustTrim (s : String) : String :=
  String.mk (trimChars s.toList)

/-- The error enum of `src/handler/error.rs` (the variants the session engine
uses). -/
inductive ApiError where
  | RequestFailed (msg : String)
  | RequestTimeout
  | LoginFailed (msg : String)
  | LogoutFailed (msg : String)
  | NotAuthenticated
  | CsrfTokenNotFound
  | CacheError (msg : String)
  | JsonError (msg : String)
  | IoError (msg : String)
deriving DecidableEq, Repr

/-- Embedding of `Cookie` of `src/api/auth/utils/cache.rs`. -/
structure Cookie where
  name : String
  value : String
  domain : String
  path : String
  http_only : Bool
  secure : Bool
deriving DecidableEq, Repr

/-- Embedding of `CacheData` of `src/api/auth/utils/cache.rs`: the persisted session. -/
structure CacheData where
  cookies : List Cookie
  csrf_token : String
  logged_in : Bool
  timestamp : Int
deriving DecidableEq, Repr

/-- The single-slot session store: `session.json` either absent or holding one
`CacheData` record. -/
abbrev Store := Option CacheData

namespace cookies

/-- Embedding of `parse_set_cookie` of `src/api/auth/utils/cookies.rs`.

Rust: `splitn(2, '=')` yields the part before the first `'='` and, when a
`'='` exists, the remainder after it.  The name is the first part trimmed
(`None` if empty); when no `'='` exists `parts.next()` yields `None` and the
whole cookie is discarded; the value is `rest.split(';').next()` trimmed,
i.e. the remainder up to the first `';'`. -/
def parse_set_cookie (cookie_str : String) : Option (String × String) :=
  let cs := cookie_str.toList
  let name := String.mk (trimChars (cs.takeWhile (· ≠ '=')))
  if name = "" then none
  else if cs.contains '=' then
    let rest := (cs.dropWhile (· ≠ '=')).tail
    let value := String.mk (trimChars (rest.takeWhile (· ≠ ';')))
    some (name, value)
  else none

/-- Embedding of `HashMap::insert` on an association-list model of
`HashMap<String, String>`: replace the value of an existing key, otherwise
append the new binding. -/
def insertReplace (m : List (String × String)) (k v : String) :
    List (String × String) :=
  if m.any (fun p => p.1 = k) then
    m.map (fun p => if p.1 = k then (k, v) else p)
  else m ++ [(k, v)]

/-- Embedding of `extract_cookies` of `src/api/auth/utils/cookies.rs`: fold every
`Set-Cookie` header value through `parse_set_cookie` into the map; a later
cookie with the same name overwrites an earlier one (HashMap::insert). -/
def extract_cookies (headers : List String) : List (String × String) :=
  headers.foldl
    (fun m s =>
      match parse_set_cookie s with
      | some (n, v) => insertReplace m n v
      | none => m)
    []

/-- Lookup in the association-list cookie map (`HashMap::get`). -/
def lookupCookie : List (String × String) → String → Option String
  | [], _ => none
  | p :: m, k => if p.1 = k then some p.2 else lookupCookie m k

/-- The parsing step exactly as claimed by the spec (for the refinement
comparison with `parse_set_cookie`): take the substring up to the first `';'`,
split once on `'='`; the left side trimmed is the name (discarded when
empty), the right side trimmed is the value, the value being empty when `'='`
is missing. -/
def parse_set_cookie_spec (cookie_str : String) : Option (String × String) :=
  let upToSemi := cookie_str.toList.takeWhile (· ≠ ';')
  let name := String.mk (trimChars (upToSemi.takeWhile (· ≠ '=')))
  if name = "" then none
  else
    let value :=
      if upToSemi.contains '=' then
        String.mk (trimChars ((upToSemi.dropWhile (· ≠ '=')).tail))
      else ""
    some (name, value)

end cookies

namespace token

/-- Abstraction of an HTML document as observed by `src/api/auth/utils/token.rs`:
the raw body text together with the `value` attribute of the first
`input[name="_token"]` element and the `content` attribute of the first
`meta[name="csrf-token"]` element, each `none` when the element or the
attribute is absent. -/
structure Html where
  raw : String
  input_token : Option String
  meta_token : Option String
deriving DecidableEq, Repr

/-- Embedding of `extract_from_input` of `token.rs`: the `value` attribute of the first
`input[name="_token"]`, trimmed, dropped if empty. -/
def extract_from_input (h : Html) : Option String :=
  match h.input_token with
  | none => none
  | some v => if rustTrim v = "" then none else some (rustTrim v)

/-- Embedding of `extract_from_meta` of `token.rs`: the `content` attribute of the first
`meta[name="csrf-token"]`, trimmed, dropped if empty. -/
def extract_from_meta (h : Html) : Option String :=
  match h.meta_token with
  | none => none
  | some v => if rustTrim v = "" then none else some (rustTrim v)

/-- Embedding of `extract_csrf_token` of `token.rs`: input field first, then meta tag,
else `CsrfTokenNotFound`. -/
def extract_csrf_token (h : Html) : Except ApiError String :=
  match extract_from_input h with
  | some t => .ok t
  | none =>
    match extract_from_meta h with
    | some t => .ok t
    | none => .error .CsrfTokenNotFound

end token

namespace cache

/-- A file-system operation, for the analysis of `CacheManager::save`. -/
inductive FsOp where
  | write (path : String) (contents : String)
  | fsync (path : String)
  | rename (src : String) (dst : String)
deriving DecidableEq, Repr

/-- Stand-in for `serde_json::to_string_pretty` on a `CacheData` value (the
exact text is irrelevant to the claims; what matters is that `save` writes
one serialized string). -/
def cacheJson (d : CacheData) : String :=
  "\x7b\n  \"cookies\": [" ++
    String.intercalate ", "
      (d.cookies.map (fun c => "\x7b\"name\": \"" ++ c.name ++ "\", \"value\": \"" ++ c.value ++ "\"\x7d")) ++
  "],\n  \"csrf_token\": \"" ++ d.csrf_token ++ "\",\n  \"logged_in\": " ++
  (if d.logged_in then "true" else "false") ++ ",\n  \"timestamp\": " ++
  toString d.timestamp ++ "\n\x7d"

/-- The file-system operations performed by `CacheManager::save` of
`src/api/auth/utils/cache.rs`: a single `fs::write` of the serialized JSON
directly to the cache file. -/
def saveOps (cache_file : String) (d : CacheData) : List FsOp :=
  [FsOp.write cache_file (cacheJson d)]

/-- The write-to-temp / fsync / rename-over-target shape that the spec's
`save` is claimed to follow. -/
def AtomicSavePattern (ops : List FsOp) (target : String) : Prop :=
  ∃ tmp c, tmp ≠ target ∧
    ops = [FsOp.write tmp c, FsOp.fsync tmp, FsOp.rename tmp target]

/-- Embedding of `CacheManager::save` on the single-slot store model: replace the slot. -/
def save (_store : Store) (d : CacheData) : Store := some d

/-- Embedding of `CacheManager::load` on the single-slot store model: `None` when the file
is absent, the record otherwise. -/
def load (store : Store) : Option CacheData := store

/-- Embedding of `CacheManager::clear`: delete the file if present (absence not an
error). -/
def clear (_store : Store) : Store := none

/-- Embedding of `CacheData::with_csrf_token` of `cache.rs`: replace the token and reset
the timestamp to now. -/
def with_csrf_token (d : CacheData) (new_token : String) (now : Int) :
    CacheData :=
  { d with csrf_token := new_token, timestamp := now }

/-- Embedding of `CacheManager::update_csrf_token` of `cache.rs`: if a record exists, load
it, replace its token (timestamp := now) and save it; otherwise do
nothing. -/
def update_csrf_token (store : Store) (new_token : String) (now : Int) :
    Store :=
  match load store with
  | some d => save store (with_csrf_token d new_token now)
  | none => store

end cache

/-- The session invariant of the spec's §3: `csrf_token` is non-empty
whenever `logged_in = true`. -/
def sessionInv (d : CacheData) : Prop :=
  d.logged_in = true → ¬ d.csrf_token = ""

instance (d : CacheData) : Decidable (sessionInv d) := by
  unfold sessionInv; infer_instance

/-- Outcome of one network send, as seen after `ApiError::from(reqwest::Error)`
conversion: either a network-level failure carrying the converted error, or an
HTTP response.  For a GET of the login page the interesting payload is the
HTML body; for a POST it is the status, the `Set-Cookie` header values in
order, and the body text. -/
inductive GetOutcome where
  | netErr (e : ApiError)
  | resp (status : Nat) (body : token.Html)
deriving Repr

/-- Outcome of one login/logout POST attempt. -/
inductive PostOutcome where
  | netErr (e : ApiError)
  | resp (status : Nat) (set_cookies : List String) (body : String)
deriving Repr

/-- Embedding of `reqwest::StatusCode::is_success`: 2xx. -/
def isSuccessStatus (s : Nat) : Bool := 200 ≤ s ∧ s < 300

/-- Embedding of `body.split('<').next().unwrap_or("Unknown error").trim()` — `split`
always yields a first element, so this is the prefix before the first `'<'`,
trimmed. -/
def cleanBody (body : String) : String :=
  rustTrim (String.mk (body.toList.takeWhile (· ≠ '<')))

/-- The 200-character body preview used in login error messages
(`.chars().take(200).collect()`). -/
def bodyPreview (body : String) : String :=
  String.mk (body.toList.take 200)

/-- Embedding of `MAX_RETRIES` of `loging.rs` / `logout.rs`. -/
def MAX_RETRIES : Nat := 3

/-- Embedding of `INITIAL_RETRY_DELAY` of `loging.rs` / `logout.rs`, in milliseconds. -/
def INITIAL_RETRY_DELAY : Nat := 100

namespace LoginClient

/-- Embedding of `EnvConfig` of `src/handler/env.rs`, restricted to the fields the session
engine reads. -/
structure EnvConfig where
  user_email : String
  user_password : String
  base_url : String
deriving Repr

/-- Embedding of `LoginClient::validate_credentials`: fail on empty email or password
(the missing-`'@'` case only logs a warning). -/
def validate_credentials (cfg : EnvConfig) : Except ApiError Unit :=
  if cfg.user_email = "" then
    .error (.LoginFailed "USER_EMAIL cannot be empty")
  else if cfg.user_password = "" then
    .error (.LoginFailed "USER_PASSWORD cannot be empty")
  else .ok ()

/-- Embedding of `LoginClient::fetch_csrf_token` (one attempt): GET the login page; on a
network error surface the converted error; on a non-2xx status fail
`LoginFailed` with a 200-char body preview; on 2xx run `extract_csrf_token`
on the body. -/
def fetch_csrf_token (o : GetOutcome) : Except ApiError String :=
  match o with
  | .netErr e => .error e
  | .resp status html =>
    if isSuccessStatus status then
      token.extract_csrf_token html
    else
      .error (.LoginFailed
        ("Failed to fetch login page (HTTP " ++ toString status ++ "): " ++
          bodyPreview html.raw))

/-- The loop body of `LoginClient::fetch_csrf_token_with_retry`
(`for attempt in 0..MAX_RETRIES`), with fuel = remaining iterations.  Returns
the result together with the number of GET attempts made and the list of
sleep durations (ms).  Every error — including `CsrfTokenNotFound` — is
retried. -/
def fetch_csrf_go (g : Nat → GetOutcome) :
    Nat → Nat → Option ApiError → Except ApiError String × Nat × List Nat
  | 0, _, last =>
    (.error (last.getD (.LoginFailed "Failed to fetch CSRF token after retries")),
      0, [])
  | fuel + 1, attempt, _last =>
    match fetch_csrf_token (g attempt) with
    | .ok t => (.ok t, 1, [])
    | .error e =>
      if attempt < MAX_RETRIES - 1 then
        let d := INITIAL_RETRY_DELAY * 2 ^ attempt
        let r := fetch_csrf_go g fuel (attempt + 1) (some e)
        (r.1, r.2.1 + 1, d :: r.2.2)
      else
        let r := fetch_csrf_go g fuel (attempt + 1) (some e)
        (r.1, r.2.1 + 1, r.2.2)

/-- Embedding of `LoginClient::fetch_csrf_token_with_retry`. -/
def fetch_csrf_token_with_retry (g : Nat → GetOutcome) :
    Except ApiError String × Nat × List Nat :=
  fetch_csrf_go g MAX_RETRIES 0 none

/-- A successful login POST response as returned from
`execute_login_request`. -/
structure PostResponse where
  status : Nat
  set_cookies : List String
  body : String
deriving Repr

/-- The loop body of `LoginClient::execute_login_request`: return the
response when its status is a success or `< 500`; otherwise record the error
(`RequestFailed("HTTP {status}")` for a 5xx, the converted error for a
network failure), sleep `INITIAL_RETRY_DELAY * 2^attempt` when another
attempt remains, and retry. -/
def execute_login_go (p : Nat → PostOutcome) :
    Nat → Nat → Option ApiError → Except ApiError PostResponse × Nat × List Nat
  | 0, _, last =>
    (.error (last.getD (.LoginFailed "Login request failed after retries")), 0, [])
  | fuel + 1, attempt, _last =>
    let step : Except ApiError PostResponse ⊕ ApiError :=
      match p attempt with
      | .resp status cookies body =>
        if isSuccessStatus status ∨ status < 500 then
          .inl (.ok ⟨status, cookies, body⟩)
        else
          .inr (.RequestFailed ("HTTP " ++ toString status))
      | .netErr e => .inr e
    match step with
    | .inl r => (r, 1, [])
    | .inr e =>
      if attempt < MAX_RETRIES - 1 then
        let d := INITIAL_RETRY_DELAY * 2 ^ attempt
        let r := execute_login_go p fuel (attempt + 1) (some e)
        (r.1, r.2.1 + 1, d :: r.2.2)
      else
        let r := execute_login_go p fuel (attempt + 1) (some e)
        (r.1, r.2.1 + 1, r.2.2)

/-- Embedding of `LoginClient::execute_login_request`. -/
def execute_login_request (p : Nat → PostOutcome) :
    Except ApiError PostResponse × Nat × List Nat :=
  execute_login_go p MAX_RETRIES 0 none

/-- Embedding of `LoginClient::validate_login_response`: 2xx is success; 419, 422, 429,
5xx and every other non-2xx status (3xx included) map to a terminal
`LoginFailed`. -/
def validate_login_response (status : Nat) (body : String) :
    Except ApiError Unit :=
  if isSuccessStatus status then .ok ()
  else if status = 419 then .error (.LoginFailed "CSRF token expired or invalid")
  else if status = 422 then
    .error (.LoginFailed "Validation error: email/password incorrect")
  else if status = 429 then
    .error (.LoginFailed "Too many requests, please try later")
  else if 500 ≤ status ∧ status ≤ 599 then
    .error (.LoginFailed ("Server error (HTTP " ++ toString status ++ ")"))
  else
    .error (.LoginFailed ("HTTP " ++ toString status ++ ": " ++ cleanBody body))

/-- Embedding of `LoginClient::build_cache_data`: turn the harvested cookie map into
`Cookie` records (domain := base_url, path "/", http_only, not secure), token
as used, `logged_in := true`, timestamp := now. -/
def build_cache_data (cfg : EnvConfig) (cookies : List (String × String))
    (csrf_token : String) (now : Int) : CacheData :=
  { cookies := cookies.map (fun nv =>
      { name := nv.1, value := nv.2, domain := cfg.base_url, path := "/",
        http_only := true, secure := false })
    csrf_token := csrf_token
    logged_in := true
    timestamp := now }

/-- Embedding of `LoginClient::login`: validate credentials, fetch the CSRF token with
retry, POST the credentials with retry (`attach_cached_cookies` only reads
the store), validate the response status, harvest the `Set-Cookie` headers,
build the new session and save it.  Returns the login result together with
the resulting store. -/
def login (cfg : EnvConfig) (store : Store) (g : Nat → GetOutcome)
    (p : Nat → PostOutcome) (now : Int) :
    Except ApiError CacheData × Store :=
  match validate_credentials cfg with
  | .error e => (.error e, store)
  | .ok _ =>
    match (fetch_csrf_token_with_retry g).1 with
    | .error e => (.error e, store)
    | .ok csrf_token =>
      match (execute_login_request p).1 with
      | .error e => (.error e, store)
      | .ok r =>
        match validate_login_response r.status r.body with
        | .error e => (.error e, store)
        | .ok _ =>
          let cookies := cookies.extract_cookies r.set_cookies
          let data := build_cache_data cfg cookies csrf_token now
          (.ok data, cache.save store data)

end LoginClient

namespace LogoutClient

/-- Embedding of `LogoutClient::load_valid_session` of `src/api/auth/logout.rs`: a session
with `logged_in = true` is returned and the store untouched; a session with
`logged_in = false` clears the store and fails `NotAuthenticated`; an absent
session fails `NotAuthenticated` (store already empty). -/
def load_valid_session (store : Store) : Except ApiError CacheData × Store :=
  match cache.load store with
  | some d =>
    if d.logged_in then (.ok d, store)
    else (.error .NotAuthenticated, cache.clear store)
  | none => (.error .NotAuthenticated, store)

/-- Embedding of `LogoutClient::map_logout_error` of `logout.rs`. -/
def map_logout_error (status : Nat) (body : String) : ApiError :=
  if status = 419 then .LogoutFailed "CSRF token expired or invalid"
  else if status = 422 then .LogoutFailed "Validation error (maybe missing _token)"
  else if status = 429 then .LogoutFailed "Too many requests, please try later"
  else if 500 ≤ status ∧ status ≤ 599 then
    .LogoutFailed ("Server error (HTTP " ++ toString status ++ ")")
  else .LogoutFailed ("HTTP " ++ toString status ++ ": " ++ body)

/-- The loop body of `LogoutClient::execute_logout_request`: 2xx, 302 or 303
clears the cache and succeeds; any other status `< 500` is terminal via
`map_logout_error`; a 5xx or a network error is recorded and retried with
backoff.  Returns the result, the store after the loop, the number of POST
attempts, and the sleeps. -/
def execute_logout_go (p : Nat → PostOutcome) (store : Store) :
    Nat → Nat → Option ApiError →
    Except ApiError Unit × Store × Nat × List Nat
  | 0, _, last =>
    (.error (last.getD (.LogoutFailed "Logout request failed after maximum retries")),
      store, 0, [])
  | fuel + 1, attempt, _last =>
    let step : Except ApiError Unit ⊕ ApiError :=
      match p attempt with
      | .resp status _cookies body =>
        if isSuccessStatus status ∨ status = 302 ∨ status = 303 then
          .inl (.ok ())
        else if status < 500 then
          .inl (.error (map_logout_error status (cleanBody body)))
        else
          .inr (.LogoutFailed
            ("HTTP " ++ toString status ++ " - " ++ cleanBody body))
      | .netErr e => .inr e
    match step with
    | .inl (.ok _) => (.ok (), cache.clear store, 1, [])
    | .inl (.error e) => (.error e, store, 1, [])
    | .inr e =>
      if attempt < MAX_RETRIES - 1 then
        let d := INITIAL_RETRY_DELAY * 2 ^ attempt
        let r := execute_logout_go p store fuel (attempt + 1) (some e)
        (r.1, r.2.1, r.2.2.1 + 1, d :: r.2.2.2)
      else
        let r := execute_logout_go p store fuel (attempt + 1) (some e)
        (r.1, r.2.1, r.2.2.1 + 1, r.2.2.2)

/-- Embedding of `LogoutClient::execute_logout_request`. -/
def execute_logout_request (p : Nat → PostOutcome) (store : Store) :
    Except ApiError Unit × Store × Nat × List Nat :=
  execute_logout_go p store MAX_RETRIES 0 none

/-- Embedding of `LogoutClient::logout`: load a logged-in session (else fail without any
POST), then POST the logout form `{_token: cached token}` with retry.
Returns the result, the resulting store, and the number of POST attempts. -/
def logout (store : Store) (p : Nat → PostOutcome) :
    Except ApiError Unit × Store × Nat :=
  match load_valid_session store with
  | (.error e, store') => (.error e, store', 0)
  | (.ok _d, store') =>
    let r := execute_logout_request p store'
    (r.1, r.2.1, r.2.2.1)

/-- Embedding of `LogoutClient::logout_with_token`: identical to `logout` except that the
form token is the supplied one; the session gate is still consulted first. -/
def logout_with_token (store : Store) (_csrf_token : String)
    (p : Nat → PostOutcome) : Except ApiError Unit × Store × Nat :=
  match load_valid_session store with
  | (.error e, store') => (.error e, store', 0)
  | (.ok _d, store') =>
    let r := execute_logout_request p store'
    (r.1, r.2.1, r.2.2.1)

end LogoutClient

namespace DashboardClient

/-- Embedding of `DashboardClient::ensure_authenticated` of `src/api/dashboard/index.rs`:
`Some(cache) if cache.logged_in` is returned; every other case fails
`NotAuthenticated` with the store untouched (no `clear`).  `PicClient`
(`pic.rs`), `InputDataClient` (`input_data.rs`) and `InputUserClient`
(`input_user.rs`) have the identical body.  Pure: no network oracle is
consulted. -/
def ensure_authenticated (store : Store) :
    Except ApiError CacheData × Store :=
  match cache.load store with
  | some d => if d.logged_in then (.ok d, store) else (.error .NotAuthenticated, store)
  | none => (.error .NotAuthenticated, store)

end DashboardClient

namespace UsersClient

/-- Embedding of `UsersClient::ensure_authenticated` of `src/api/dashboard/users.rs`: like
the dashboard gate, but a session with `logged_in = false` clears the cache
before failing `NotAuthenticated`.  Pure: no network oracle is consulted. -/
def ensure_authenticated (store : Store) :
    Except ApiError CacheData × Store :=
  match cache.load store with
  | some d =>
    if d.logged_in then (.ok d, store)
    else (.error .NotAuthenticated, cache.clear store)
  | none => (.error .NotAuthenticated, store)

end UsersClient

namespace CekUnitClient

/-- Embedding of `CekUnitClient::logout` of `src/client.rs`:

```text
if let Ok(dashboard) = self.dashboard() {
    if let Ok(token) = dashboard.get_csrf_token() {
        if self.logout_client.logout_with_token(&token).is_ok() {
            return Ok(());
        }
    }
}
self.logout_client.logout()
```

`dashboard()` construction and `dashboard.get_csrf_token()` (a GET of the
dashboard page plus token extraction) are modelled by their outcomes;
`logout_with_token` and the fallback `logout` share the store and each take
their own POST oracle.  The returned list holds the POST-attempt count of
each logout call that was made, in order (so its length is the number of
logout requests issued, at most two). -/
def logout (dashboardNew : Except ApiError Unit)
    (getCsrf : Except ApiError String) (store : Store)
    (pWith : Nat → PostOutcome) (pCached : Nat → PostOutcome) :
    Except ApiError Unit × Store × List Nat :=
  match dashboardNew, getCsrf with
  | .ok _, .ok tok =>
    match LogoutClient.logout_with_token store tok pWith with
    | (.ok _, store', n) => (.ok (), store', [n])
    | (.error _, store', n) =>
      let r := LogoutClient.logout store' pCached
      (r.1, r.2.1, [n, r.2.2])
  | _, _ =>
    let r := LogoutClient.logout store pCached
    (r.1, r.2.1, [r.2.2])

end CekUnitClient

namespace cache

/-- A file system, as a path → contents association list. -/
abbrev FS := List (String × String)

/-- File lookup. -/
def lookupFile : FS → String → Option String
  | [], _ => none
  | q :: fs, p => if q.1 = p then some q.2 else lookupFile fs p

/-- Remove a file. -/
def removeFile : FS → String → FS
  | [], _ => []
  | q :: fs, p => if q.1 = p then removeFile fs p else q :: removeFile fs p

/-- Set (create or replace) a file's contents. -/
def setFile (fs : FS) (p c : String) : FS :=
  removeFile fs p ++ [(p, c)]

/-- Effect of one completed file-system operation. -/
def applyFsOp (fs : FS) : FsOp → FS
  | .write p c => setFile fs p c
  | .fsync _ => fs
  | .rename s t =>
    match lookupFile fs s with
    | some c => setFile (removeFile fs s) t c
    | none => fs

/-- Run a list of operations to completion. -/
def runOps (fs : FS) (ops : List FsOp) : FS :=
  ops.foldl applyFsOp fs

/-- The file-system states observable when execution of `ops` is interrupted:
either after some prefix of the operations has completed, or in the middle of
a `write` — a plain `fs::write` is not atomic, so the target may then hold any
prefix of the contents being written. -/
def crashReachable (init : FS) (ops : List FsOp) (fs' : FS) : Prop :=
  (∃ k, fs' = runOps init (ops.take k)) ∨
  (∃ k p c j, ops.get? k = some (FsOp.write p c) ∧
    fs' = setFile (runOps init (ops.take k)) p (String.mk (c.toList.take j)))

end cache

theorem lookupCookie_map_self (m : List (String × String)) (k v : String)
    (hm : m.any (fun p => p.1 = k) = true) :
    cookies.lookupCookie (m.map (fun p => if p.1 = k then (k, v) else p)) k =
      some v := by
  induction m with
  | nil => simp at hm
  | cons p m ih =>
    by_cases hp : p.1 = k
    · simp [cookies.lookupCookie, hp]
    · have hm' : m.any (fun p => p.1 = k) = true := by
        simp only [List.any_cons, Bool.or_eq_true, decide_eq_true_eq] at hm
        rcases hm with h | h
        · exact absurd h hp
        · simpa using h
      simpa [cookies.lookupCookie, hp] using ih hm'

theorem lookupCookie_append_self (m : List (String × String)) (k v : String)
    (hm : m.any (fun p => p.1 = k) = false) :
    cookies.lookupCookie (m ++ [(k, v)]) k = some v := by
  induction m with
  | nil => simp [cookies.lookupCookie]
  | cons p m ih =>
    have hp : ¬ p.1 = k := by
      intro h
      simp [List.any_cons, h] at hm
    have hm' : m.any (fun p => p.1 = k) = false := by
      cases h : m.any (fun p => p.1 = k)
      · rfl
      · simp [List.any_cons, h] at hm
    simpa [cookies.lookupCookie, hp] using ih hm'

theorem lookupCookie_insertReplace_self (m : List (String × String))
    (k v : String) :
    cookies.lookupCookie (cookies.insertReplace m k v) k = some v := by
  unfold cookies.insertReplace
  by_cases hm : m.any (fun p => p.1 = k) = true
  · simpa [hm] using lookupCookie_map_self m k v hm
  · have hm' : m.any (fun p => p.1 = k) = false := by
      cases h : m.any (fun p => p.1 = k)
      · rfl
      · exact absurd h hm
    simpa [hm'] using lookupCookie_append_self m k v hm'

/-- C8: the claim states that cookie extraction first truncates each
`Set-Cookie` value at the first `';'` and then splits on `'='`, with the
value empty when `'='` is missing.  `parse_set_cookie` in the code splits on
`'='` first and *discards* a header with no `'='` at all: on the header
`"justname"` the code produces no cookie while the claimed algorithm
produces `("justname", "")`. -/
theorem C8_counterexample :
    cookies.parse_set_cookie "justname" = none ∧
    cookies.parse_set_cookie_spec "justname" = some ("justname", "") ∧
    cookies.parse_set_cookie "justname" ≠
      cookies.parse_set_cookie_spec "justname" := by
  refine ⟨by decide, by decide, by decide⟩

/-- C8 (amended): `parse_set_cookie` splits the whole header once on `'='`;
a header containing no `'='` is discarded entirely (not given an empty
value); the trimmed left side is the name, discarded when empty; the value
is the remainder after `'='` truncated at the first `';'` and trimmed; and in
`extract_cookies` a later cookie with the same name overwrites an earlier
one while an unparseable header leaves the map unchanged. -/
theorem C8_amended :
    (∀ s : String, s.toList.contains '=' = false →
      cookies.parse_set_cookie s = none) ∧
    (∀ (hs : List String) (h n v : String),
      cookies.parse_set_cookie h = some (n, v) →
      cookies.lookupCookie (cookies.extract_cookies (hs ++ [h])) n = some v) ∧
    (∀ (hs : List String) (h : String), cookies.parse_set_cookie h = none →
      cookies.extract_cookies (hs ++ [h]) = cookies.extract_cookies hs) ∧
    (∀ s n v : String, cookies.parse_set_cookie s = some (n, v) → ¬ n = "") := by
  refine ⟨?_, ?_, ?_, ?_⟩
  · intro s hc
    have hmem : '=' ∉ s.toList := by simpa using hc
    simp only [cookies.parse_set_cookie]
    split
    · rfl
    · rw [if_neg]
      simpa using hmem
  · intro hs h n v hp
    unfold cookies.extract_cookies
    rw [List.foldl_append]
    simp only [List.foldl_cons, List.foldl_nil, hp]
    exact lookupCookie_insertReplace_self _ n v
  · intro hs h hp
    unfold cookies.extract_cookies
    rw [List.foldl_append]
    simp only [List.foldl_cons, List.foldl_nil, hp]
  · intro s n v hp
    simp only [cookies.parse_set_cookie] at hp
    split at hp
    · exact absurd hp (by simp)
    · split at hp
      · rename_i hne _
        simp only [Option.some.injEq, Prod.mk.injEq] at hp
        rw [← hp.1]
        exact hne
      · exact absurd hp (by simp)

/-- Witness for `C8_amended` at concrete inputs: a `'='`-less header is
discarded, and a later `sid` cookie overwrites an earlier one. -/
theorem C8_amended_witness :
    cookies.parse_set_cookie "justname" = none ∧
    cookies.lookupCookie
      (cookies.extract_cookies ["sid=1; Path=/", "sid=2"]) "sid" = some "2" :=
  ⟨C8_amended.1 "justname" (by decide),
    C8_amended.2.1 ["sid=1; Path=/"] "sid=2" "sid" "2" (by decide)⟩

theorem cacheJson_ne_empty (d : CacheData) : ¬ cache.cacheJson d = "" := by
  intro h
  have hl := congrArg String.length h
  simp only [cache.cacheJson, String.length_append] at hl
  have h16 : ("\x7b\n  \"cookies\": [" : String).length = 16 := rfl
  have h0 : ("" : String).length = 0 := rfl
  rw [h16, h0] at hl
  omega

theorem lookupFile_removeFile_append (fs : cache.FS) (p c : String) :
    cache.lookupFile (cache.removeFile fs p ++ [(p, c)]) p = some c := by
  induction fs with
  | nil => simp [cache.removeFile, cache.lookupFile]
  | cons q fs ih =>
    by_cases hq : q.1 = p
    · simpa [cache.removeFile, hq] using ih
    · simpa [cache.removeFile, cache.lookupFile, hq] using ih

theorem lookupFile_setFile_self (fs : cache.FS) (p c : String) :
    cache.lookupFile (cache.setFile fs p c) p = some c :=
  lookupFile_removeFile_append fs p c

/-- C3: the claim states that `CacheManager::save` writes a temp file in the
same directory, fsyncs and renames it over `session.json`, so that an
interruption can never leave `session.json` truncated.  `save` in
`cache.rs` is a single direct `fs::write(&self.cache_file, json)`: its
operation trace does not match the temp/fsync/rename pattern, and a crash in
the middle of that write over a previously valid `session.json` can leave the
file holding `""` — neither the old document nor the new one, i.e.
truncated. -/
theorem C3_counterexample :
    ¬ cache.AtomicSavePattern
        (cache.saveOps "session.json" ⟨[], "NEW", true, 1⟩) "session.json" ∧
    cache.crashReachable
      [("session.json", cache.cacheJson ⟨[], "OLD", true, 0⟩)]
      (cache.saveOps "session.json" ⟨[], "NEW", true, 1⟩)
      (cache.setFile [("session.json", cache.cacheJson ⟨[], "OLD", true, 0⟩)]
        "session.json" "") ∧
    cache.lookupFile
      (cache.setFile [("session.json", cache.cacheJson ⟨[], "OLD", true, 0⟩)]
        "session.json" "") "session.json" = some "" ∧
    some "" ≠
      cache.lookupFile
        [("session.json", cache.cacheJson ⟨[], "OLD", true, 0⟩)] "session.json" ∧
    ("" : String) ≠ cache.cacheJson ⟨[], "NEW", true, 1⟩ := by
  refine ⟨?_, ?_, by decide, by decide, by decide⟩
  · rintro ⟨tmp, c, hne, heq⟩
    simp [cache.saveOps] at heq
  · exact Or.inr ⟨0, "session.json", cache.cacheJson ⟨[], "NEW", true, 1⟩, 0,
      rfl, rfl⟩

/-- C3 (amended): `save` serializes the session and writes it to
`session.json` in one direct `fs::write`; there is no temp file, no fsync and
no rename, so the atomic-replacement pattern is absent and an interruption in
the middle of the write can leave `session.json` truncated (here: empty,
which is not the serialized document). -/
theorem C3_amended (cache_file : String) (d : CacheData) :
    cache.saveOps cache_file d =
      [cache.FsOp.write cache_file (cache.cacheJson d)] ∧
    ¬ cache.AtomicSavePattern (cache.saveOps cache_file d) cache_file ∧
    ∀ init : cache.FS, ∃ fs' : cache.FS,
      cache.crashReachable init (cache.saveOps cache_file d) fs' ∧
      cache.lookupFile fs' cache_file = some "" ∧
      ¬ ("" : String) = cache.cacheJson d := by
  refine ⟨rfl, ?_, ?_⟩
  · rintro ⟨tmp, c, hne, heq⟩
    simp [cache.saveOps] at heq
  · intro init
    refine ⟨cache.setFile init cache_file "", Or.inr ⟨0, cache_file,
      cache.cacheJson d, 0, rfl, rfl⟩, lookupFile_setFile_self init cache_file "",
      fun h => cacheJson_ne_empty d h.symm⟩

/-- C5: the claim states that the `ensure_authenticated` gate of *each*
authenticated request builder deletes the cached session file when the
session has `logged_in = false`.  `DashboardClient::ensure_authenticated`
(and likewise the PIC, input-data and input-user clients) returns
`NotAuthenticated` but leaves the store untouched — the file survives. -/
theorem C5_counterexample :
    DashboardClient.ensure_authenticated (some ⟨[], "TOK", false, 0⟩) =
      (.error .NotAuthenticated, some ⟨[], "TOK", false, 0⟩) ∧
    (some ⟨[], "TOK", false, 0⟩ : Store) ≠ none := by
  exact ⟨rfl, by decide⟩

/-- C5 (amended): on a cached session with `logged_in = false`, only
`UsersClient`'s gate deletes the session file before failing with
`NotAuthenticated`; the dashboard gate (shared verbatim by the PIC,
input-data and input-user clients) fails with `NotAuthenticated` leaving the
file in place.  When no session exists both gates fail with
`NotAuthenticated`.  Neither gate performs network I/O: both are pure
functions of the store, consulting no network oracle. -/
theorem C5_amended (d : CacheData) (hd : d.logged_in = false) :
    UsersClient.ensure_authenticated (some d) =
      (.error .NotAuthenticated, none) ∧
    DashboardClient.ensure_authenticated (some d) =
      (.error .NotAuthenticated, some d) ∧
    UsersClient.ensure_authenticated none = (.error .NotAuthenticated, none) ∧
    DashboardClient.ensure_authenticated none =
      (.error .NotAuthenticated, none) := by
  refine ⟨?_, ?_, rfl, rfl⟩
  · simp [UsersClient.ensure_authenticated, cache.load, cache.clear, hd]
  · simp [DashboardClient.ensure_authenticated, cache.load, hd]

/-- Witness for `C5_amended` at a concrete stale session. -/
theorem C5_amended_witness :
    UsersClient.ensure_authenticated (some ⟨[], "TOK", false, 0⟩) =
      (.error .NotAuthenticated, none) ∧
    DashboardClient.ensure_authenticated (some ⟨[], "TOK", false, 0⟩) =
      (.error .NotAuthenticated, some ⟨[], "TOK", false, 0⟩) :=
  ⟨(C5_amended ⟨[], "TOK", false, 0⟩ rfl).1,
    (C5_amended ⟨[], "TOK", false, 0⟩ rfl).2.1⟩

theorem extract_from_input_ne_empty (h : token.Html) (t : String)
    (hs : token.extract_from_input h = some t) : ¬ t = "" := by
  cases hv : h.input_token with
  | none => simp [token.extract_from_input, hv] at hs
  | some v =>
    simp only [token.extract_from_input, hv] at hs
    split at hs
    · exact absurd hs (by simp)
    · rename_i hne
      simp only [Option.some.injEq] at hs
      rw [← hs]
      exact hne

theorem extract_from_meta_ne_empty (h : token.Html) (t : String)
    (hs : token.extract_from_meta h = some t) : ¬ t = "" := by
  cases hv : h.meta_token with
  | none => simp [token.extract_from_meta, hv] at hs
  | some v =>
    simp only [token.extract_from_meta, hv] at hs
    split at hs
    · exact absurd hs (by simp)
    · rename_i hne
      simp only [Option.some.injEq] at hs
      rw [← hs]
      exact hne

theorem extract_csrf_token_ok_ne_empty (h : token.Html) (t : String)
    (hok : token.extract_csrf_token h = .ok t) : ¬ t = "" := by
  unfold token.extract_csrf_token at hok
  cases hi : token.extract_from_input h with
  | some t' =>
    simp only [hi, Except.ok.injEq] at hok
    rw [← hok]
    exact extract_from_input_ne_empty h t' hi
  | none =>
    simp only [hi] at hok
    cases hm : token.extract_from_meta h with
    | some t' =>
      simp only [hm, Except.ok.injEq] at hok
      rw [← hok]
      exact extract_from_meta_ne_empty h t' hm
    | none => simp [hm] at hok

theorem fetch_csrf_token_ok_ne_empty (o : GetOutcome) (t : String)
    (hok : LoginClient.fetch_csrf_token o = .ok t) : ¬ t = "" := by
  cases o with
  | netErr e => simp [LoginClient.fetch_csrf_token] at hok
  | resp st html =>
    simp only [LoginClient.fetch_csrf_token] at hok
    split at hok
    · exact extract_csrf_token_ok_ne_empty html t hok
    · simp at hok

theorem fetch_csrf_go_ok_ne_empty (g : Nat → GetOutcome) :
    ∀ (fuel attempt : Nat) (last : Option ApiError) (t : String),
      (LoginClient.fetch_csrf_go g fuel attempt last).1 = .ok t → ¬ t = "" := by
  intro fuel
  induction fuel with
  | zero =>
    intro attempt last t hok
    simp [LoginClient.fetch_csrf_go] at hok
  | succ n ih =>
    intro attempt last t hok
    unfold LoginClient.fetch_csrf_go at hok
    cases hf : LoginClient.fetch_csrf_token (g attempt) with
    | ok t' =>
      simp only [hf] at hok
      have ht : t' = t := by
        have h2 : (Except.ok t' : Except ApiError String) = Except.ok t := hok
        injection h2
      rw [← ht]
      exact fetch_csrf_token_ok_ne_empty _ t' hf
    | error e =>
      simp only [hf] at hok
      split at hok
      · exact ih (attempt + 1) (some e) t hok
      · exact ih (attempt + 1) (some e) t hok

theorem fetch_csrf_token_with_retry_ok_ne_empty (g : Nat → GetOutcome)
    (t : String) (hok : (LoginClient.fetch_csrf_token_with_retry g).1 = .ok t) :
    ¬ t = "" :=
  fetch_csrf_go_ok_ne_empty g MAX_RETRIES 0 none t hok

theorem login_shape (cfg : LoginClient.EnvConfig) (store : Store)
    (g : Nat → GetOutcome) (p : Nat → PostOutcome) (now : Int) :
    (∃ tok cs,
      (LoginClient.fetch_csrf_token_with_retry g).1 = .ok tok ∧
      LoginClient.login cfg store g p now =
        (.ok (LoginClient.build_cache_data cfg cs tok now),
          some (LoginClient.build_cache_data cfg cs tok now))) ∨
    (∃ e, LoginClient.login cfg store g p now = (.error e, store)) := by
  unfold LoginClient.login
  cases hv : LoginClient.validate_credentials cfg with
  | error e => right; exact ⟨e, by simp [hv]⟩
  | ok u =>
    cases hf : (LoginClient.fetch_csrf_token_with_retry g).1 with
    | error e => right; exact ⟨e, by simp [hv, hf]⟩
    | ok tok =>
      cases hr : (LoginClient.execute_login_request p).1 with
      | error e => right; exact ⟨e, by simp [hv, hf, hr]⟩
      | ok r =>
        cases hval : LoginClient.validate_login_response r.status r.body with
        | error e => right; exact ⟨e, by simp [hv, hf, hr, hval]⟩
        | ok u2 =>
          left
          refine ⟨tok, cookies.extract_cookies r.set_cookies, rfl, ?_⟩
          simp [hv, hf, hr, hval, cache.save]

/-- C9: every session the engine writes satisfies the invariant
`logged_in = true → csrf_token ≠ ""` — refuted for
`CacheManager::update_csrf_token`, which replaces the stored token by its
argument with no emptiness check: applied with an empty token to a
logged-in session it saves a session with `logged_in = true` and
`csrf_token = ""`. -/
theorem C9_counterexample :
    cache.update_csrf_token (some ⟨[], "TOK", true, 0⟩) "" 5 =
      some ⟨[], "", true, 5⟩ ∧
    ¬ sessionInv ⟨[], "", true, 5⟩ := by
  exact ⟨rfl, by decide⟩

/-- C9 (amended): the session saved by a successful `login` always satisfies
the invariant (its token comes from `extract_csrf_token`, which only returns
non-empty trimmed tokens), and `update_csrf_token` preserves the invariant
exactly when the supplied replacement token is non-empty; with an empty
token it writes a violating session. -/
theorem C9_amended :
    (∀ (cfg : LoginClient.EnvConfig) (store : Store) (g : Nat → GetOutcome)
      (p : Nat → PostOutcome) (now : Int) (d : CacheData),
      (LoginClient.login cfg store g p now).1 = .ok d →
      sessionInv d ∧ (LoginClient.login cfg store g p now).2 = some d) ∧
    (∀ (d : CacheData) (t : String) (now : Int), ¬ t = "" →
      cache.update_csrf_token (some d) t now =
        some (cache.with_csrf_token d t now) ∧
      sessionInv (cache.with_csrf_token d t now)) := by
  constructor
  · intro cfg store g p now d hok
    rcases login_shape cfg store g p now with ⟨tok, cs, hf, heq⟩ | ⟨e, heq⟩
    · rw [heq] at hok
      simp only [Except.ok.injEq] at hok
      rw [heq, ← hok]
      refine ⟨?_, rfl⟩
      intro _
      exact fetch_csrf_token_with_retry_ok_ne_empty g tok hf
    · rw [heq] at hok
      exact absurd hok (by simp)
  · intro d t now ht
    exact ⟨rfl, fun _ => ht⟩

/-- Witness for `C9_amended`: a concrete successful login writes a session
satisfying the invariant, and a non-empty token update preserves it. -/
theorem C9_amended_witness :
    sessionInv ⟨[⟨"sid", "ABC", "https://t.example", "/", true, false⟩],
      "TOK1", true, 99⟩ ∧
    cache.update_csrf_token (some ⟨[], "A", true, 0⟩) "B" 5 =
      some ⟨[], "B", true, 5⟩ :=
  ⟨((C9_amended.1 ⟨"a@b.c", "password1", "https://t.example"⟩ none
      (fun _ => .resp 200 ⟨"", some "TOK1", none⟩)
      (fun _ => .resp 200 ["sid=ABC; Path=/"] "") 99
      ⟨[⟨"sid", "ABC", "https://t.example", "/", true, false⟩], "TOK1", true, 99⟩
      rfl).1),
    (C9_amended.2 ⟨[], "A", true, 0⟩ "B" 5 (by decide)).1⟩

/-- C6: if `login` ends in any error — empty credentials, CSRF-fetch
failure, or a non-success status from the login POST — the session store is
left exactly as it was before the call: `CacheManager::save` is only reached
after every validation has succeeded. -/
theorem C6_login_error_leaves_store (cfg : LoginClient.EnvConfig)
    (store : Store) (g : Nat → GetOutcome) (p : Nat → PostOutcome) (now : Int)
    (e : ApiError) (h : (LoginClient.login cfg store g p now).1 = .error e) :
    (LoginClient.login cfg store g p now).2 = store := by
  rcases login_shape cfg store g p now with ⟨tok, cs, hf, heq⟩ | ⟨e', heq⟩
  · rw [heq] at h
    exact absurd h (by simp)
  · rw [heq]

/-- Witness for `C6_login_error_leaves_store`: a login POST answered with
HTTP 419 fails and leaves the pre-existing session file unchanged. -/
theorem C6_login_error_leaves_store_witness :
    (LoginClient.login ⟨"a@b.c", "password1", "https://t.example"⟩
        (some ⟨[], "OLD", true, 0⟩) (fun _ => .resp 200 ⟨"", some "TOK1", none⟩)
        (fun _ => .resp 419 [] "") 99).1 =
      .error (.LoginFailed "CSRF token expired or invalid") ∧
    (LoginClient.login ⟨"a@b.c", "password1", "https://t.example"⟩
        (some ⟨[], "OLD", true, 0⟩) (fun _ => .resp 200 ⟨"", some "TOK1", none⟩)
        (fun _ => .resp 419 [] "") 99).2 = some ⟨[], "OLD", true, 0⟩ :=
  ⟨rfl, C6_login_error_leaves_store _ _ _ _ _
    (.LoginFailed "CSRF token expired or invalid") rfl⟩

/-- C1: the claim states that `logout` with no session, or with a stored
session having `logged_in = false`, clears the store and returns success.
`LogoutClient::load_valid_session` returns `Err(NotAuthenticated)` in both
cases, so `logout` *fails* — even under a POST oracle that would accept the
logout — and the second of two consecutive logouts therefore fails rather
than succeeding. -/
theorem C1_counterexample :
    (LogoutClient.logout none (fun _ => .resp 200 [] "")).1 =
      .error .NotAuthenticated ∧
    (LogoutClient.logout (some ⟨[], "TOK", false, 0⟩)
        (fun _ => .resp 200 [] "")).1 = .error .NotAuthenticated ∧
    (.error .NotAuthenticated : Except ApiError Unit) ≠ .ok () := by
  exact ⟨rfl, rfl, by simp⟩

/-- C1 (amended): `logout` with no session fails with `NotAuthenticated`,
leaving the store empty and issuing no POST; with a stored session having
`logged_in = false` it clears the store and fails with `NotAuthenticated`,
again issuing no POST.  Consequently the second of two consecutive `logout`
calls (the first having cleared the store) fails with `NotAuthenticated`
instead of returning success. -/
theorem C1_amended (d : CacheData) (p q : Nat → PostOutcome)
    (hd : d.logged_in = false) :
    LogoutClient.logout none p = (.error .NotAuthenticated, none, 0) ∧
    LogoutClient.logout (some d) q = (.error .NotAuthenticated, none, 0) := by
  constructor
  · rfl
  · simp [LogoutClient.logout, LogoutClient.load_valid_session, cache.load,
      cache.clear, hd]

/-- Witness for `C1_amended` at a concrete stale session and a POST oracle
that would accept the logout. -/
theorem C1_amended_witness :
    LogoutClient.logout (some ⟨[], "TOK", false, 0⟩)
        (fun _ => .resp 200 [] "") = (.error .NotAuthenticated, none, 0) :=
  (C1_amended ⟨[], "TOK", false, 0⟩ (fun _ => .resp 200 [] "")
    (fun _ => .resp 200 [] "") rfl).2

/-- C7: for an operation that fails with a network error on every attempt,
each retry wrapper (the login POST loop and the CSRF-fetch loop) invokes the
operation exactly `MAX_RETRIES = 3` times, sleeps 100 ms then 200 ms between
attempts (300 ms in total), and surfaces the error captured on the last
attempt. -/
theorem C7_retry_bound (ep eg : Nat → ApiError) :
    LoginClient.execute_login_request (fun i => .netErr (ep i)) =
      (.error (ep 2), 3, [100, 200]) ∧
    (LoginClient.execute_login_request (fun i => .netErr (ep i))).2.2.sum =
      300 ∧
    LoginClient.fetch_csrf_token_with_retry (fun i => .netErr (eg i)) =
      (.error (eg 2), 3, [100, 200]) ∧
    (LoginClient.fetch_csrf_token_with_retry
        (fun i => .netErr (eg i))).2.2.sum = 300 :=
  ⟨rfl, rfl, rfl, rfl⟩

/-- C4: the claim states that a 2xx CSRF-fetch whose HTML carries no token is
terminal — one GET, no retry.  `fetch_csrf_token_with_retry` retries *every*
error, `CsrfTokenNotFound` included: with every GET answered 200 and
token-less HTML, the fetch is attempted 3 times (sleeping 100 then 200 ms),
not once. -/
theorem C4_counterexample :
    LoginClient.fetch_csrf_token_with_retry
        (fun _ => .resp 200 ⟨"<html></html>", none, none⟩) =
      (.error .CsrfTokenNotFound, 3, [100, 200]) ∧
    ¬ (3 : Nat) = 1 := ⟨rfl, by decide⟩

/-- C4 (amended): when every CSRF-fetch GET succeeds with a 2xx status but
the HTML contains no token, the token-not-found failure is retried like any
other error: the GET is attempted exactly 3 times with 100 ms and 200 ms
sleeps, and login then fails with `CsrfTokenNotFound`, leaving the store
unchanged. -/
theorem C4_amended (g : Nat → GetOutcome)
    (hg : ∀ i, ∃ st html, g i = .resp st html ∧ isSuccessStatus st = true ∧
      token.extract_csrf_token html = .error .CsrfTokenNotFound) :
    LoginClient.fetch_csrf_token_with_retry g =
      (.error .CsrfTokenNotFound, 3, [100, 200]) ∧
    (∀ (cfg : LoginClient.EnvConfig) (store : Store) (p : Nat → PostOutcome)
      (now : Int), ¬ cfg.user_email = "" → ¬ cfg.user_password = "" →
      LoginClient.login cfg store g p now =
        (.error .CsrfTokenNotFound, store)) := by
  have hone : ∀ i, LoginClient.fetch_csrf_token (g i) =
      .error .CsrfTokenNotFound := by
    intro i
    obtain ⟨st, html, hgi, hst, hex⟩ := hg i
    simp [LoginClient.fetch_csrf_token, hgi, hst, hex]
  have hloop : LoginClient.fetch_csrf_token_with_retry g =
      (.error .CsrfTokenNotFound, 3, [100, 200]) := by
    simp [LoginClient.fetch_csrf_token_with_retry, LoginClient.fetch_csrf_go,
      MAX_RETRIES, INITIAL_RETRY_DELAY, hone]
  refine ⟨hloop, ?_⟩
  intro cfg store p now he hp
  have hv : LoginClient.validate_credentials cfg = .ok () := by
    simp [LoginClient.validate_credentials, he, hp]
  unfold LoginClient.login
  simp [hv, hloop]

/-- Witness for `C4_amended`: every GET returns 204 with token-less HTML. -/
theorem C4_amended_witness :
    LoginClient.fetch_csrf_token_with_retry
        (fun _ => .resp 204 ⟨"<p></p>", none, none⟩) =
      (.error .CsrfTokenNotFound, 3, [100, 200]) :=
  (C4_amended (fun _ => .resp 204 ⟨"<p></p>", none, none⟩)
    (fun _ => ⟨204, ⟨"<p></p>", none, none⟩, rfl, by decide, rfl⟩)).1

theorem validate_login_response_3xx (status : Nat) (body : String)
    (h3 : 300 ≤ status) (h4 : status < 400) :
    LoginClient.validate_login_response status body =
      .error (.LoginFailed
        ("HTTP " ++ toString status ++ ": " ++ cleanBody body)) := by
  have hs : isSuccessStatus status = false := by
    simp only [isSuccessStatus, decide_eq_false_iff_not]
    omega
  simp only [LoginClient.validate_login_response, hs, Bool.false_eq_true,
    if_false]
  rw [if_neg (by omega), if_neg (by omega), if_neg (by omega),
    if_neg (by omega)]

theorem execute_login_first_response (p : Nat → PostOutcome) (st : Nat)
    (cs : List String) (b : String) (hp : p 0 = .resp st cs b)
    (hlt : st < 500) :
    LoginClient.execute_login_request p = (.ok ⟨st, cs, b⟩, 1, []) := by
  simp [LoginClient.execute_login_request, LoginClient.execute_login_go,
    MAX_RETRIES, hp, hlt]

/-- C2: the claim states a 3xx login POST status is treated as success
exactly like 2xx, with cookies harvested and a logged-in session persisted.
`validate_login_response` accepts only `status.is_success()` (2xx); a 302
falls through to the catch-all arm and login fails with
`LoginFailed("HTTP 302: …")`, persisting nothing — even though the response
carried a `Set-Cookie` header. -/
theorem C2_counterexample :
    LoginClient.validate_login_response 302 "" =
      .error (.LoginFailed "HTTP 302: ") ∧
    LoginClient.login ⟨"a@b.c", "password1", "https://t.example"⟩ none
        (fun _ => .resp 200 ⟨"", some "TOK1", none⟩)
        (fun _ => .resp 302 ["sid=ABC; Path=/"] "") 99 =
      (.error (.LoginFailed "HTTP 302: "), none) := ⟨rfl, rfl⟩

/-- C2 (amended): only a 2xx login POST status is success; any 3xx status is
a terminal failure through the catch-all arm of `validate_login_response`
(`LoginFailed("HTTP n: body-preview")`), and a login whose first POST attempt
is answered with a 3xx ends in an error with the store left unchanged. -/
theorem C2_amended :
    (∀ (status : Nat) (body : String), 300 ≤ status → status < 400 →
      LoginClient.validate_login_response status body =
        .error (.LoginFailed
          ("HTTP " ++ toString status ++ ": " ++ cleanBody body))) ∧
    (∀ (cfg : LoginClient.EnvConfig) (store : Store) (g : Nat → GetOutcome)
      (p : Nat → PostOutcome) (now : Int) (st : Nat) (cs : List String)
      (b : String), p 0 = .resp st cs b → 300 ≤ st → st < 400 →
      ∃ e, LoginClient.login cfg store g p now = (.error e, store)) := by
  constructor
  · exact validate_login_response_3xx
  · intro cfg store g p now st cs b hp0 h3 h4
    unfold LoginClient.login
    cases hv : LoginClient.validate_credentials cfg with
    | error e => exact ⟨e, by simp [hv]⟩
    | ok _ =>
      cases hf : (LoginClient.fetch_csrf_token_with_retry g).1 with
      | error e => exact ⟨e, by simp [hv, hf]⟩
      | ok tok =>
        have hex : (LoginClient.execute_login_request p).1 =
            .ok ⟨st, cs, b⟩ := by
          rw [execute_login_first_response p st cs b hp0 (by omega)]
        refine ⟨.LoginFailed ("HTTP " ++ toString st ++ ": " ++ cleanBody b),
          ?_⟩
        simp [hv, hf, hex, validate_login_response_3xx st b h3 h4]

/-- Witness for `C2_amended`: a 303 is rejected, and a login answered with a
303 on the POST fails with the pre-existing session file unchanged. -/
theorem C2_amended_witness :
    LoginClient.validate_login_response 303 "" =
      .error (.LoginFailed "HTTP 303: ") ∧
    ∃ e, LoginClient.login ⟨"a@b.c", "password1", "https://t.example"⟩
        (some ⟨[], "OLD", true, 0⟩)
        (fun _ => .resp 200 ⟨"", some "TOK1", none⟩)
        (fun _ => .resp 303 [] "") 99 =
      (.error e, some ⟨[], "OLD", true, 0⟩) :=
  ⟨C2_amended.1 303 "" (by decide) (by decide),
    C2_amended.2 ⟨"a@b.c", "password1", "https://t.example"⟩
      (some ⟨[], "OLD", true, 0⟩) (fun _ => .resp 200 ⟨"", some "TOK1", none⟩)
      (fun _ => .resp 303 [] "") 99 303 [] "" rfl (by decide) (by decide)⟩

/-- C10: `CekUnitClient::logout` first tries the fresh-token path — build a
dashboard client, fetch a fresh CSRF token through it, log out with that
token — and returns success immediately when that logout succeeds; when the
dashboard client cannot be built, the token fetch fails, or the
fresh-token logout fails, it falls back to `LogoutClient::logout` with the
cached token.  At most two logout requests are issued per top-level call. -/
theorem C10_top_level_logout :
    (∀ (dn : Except ApiError Unit) (gc : Except ApiError String)
      (store : Store) (pW pC : Nat → PostOutcome),
      (CekUnitClient.logout dn gc store pW pC).2.2.length ≤ 2) ∧
    (∀ (tok : String) (store : Store) (pW pC : Nat → PostOutcome)
      (s' : Store) (n : Nat),
      LogoutClient.logout_with_token store tok pW = (.ok (), s', n) →
      CekUnitClient.logout (.ok ()) (.ok tok) store pW pC =
        (.ok (), s', [n])) ∧
    (∀ (tok : String) (store : Store) (pW pC : Nat → PostOutcome)
      (e : ApiError) (s' : Store) (n : Nat),
      LogoutClient.logout_with_token store tok pW = (.error e, s', n) →
      CekUnitClient.logout (.ok ()) (.ok tok) store pW pC =
        ((LogoutClient.logout s' pC).1, (LogoutClient.logout s' pC).2.1,
          [n, (LogoutClient.logout s' pC).2.2])) ∧
    (∀ (e : ApiError) (gc : Except ApiError String) (store : Store)
      (pW pC : Nat → PostOutcome),
      CekUnitClient.logout (.error e) gc store pW pC =
        ((LogoutClient.logout store pC).1, (LogoutClient.logout store pC).2.1,
          [(LogoutClient.logout store pC).2.2])) ∧
    (∀ (e : ApiError) (store : Store) (pW pC : Nat → PostOutcome),
      CekUnitClient.logout (.ok ()) (.error e) store pW pC =
        ((LogoutClient.logout store pC).1, (LogoutClient.logout store pC).2.1,
          [(LogoutClient.logout store pC).2.2])) := by
  refine ⟨?_, ?_, ?_, ?_, ?_⟩
  · intro dn gc store pW pC
    unfold CekUnitClient.logout
    cases dn with
    | error e => simp
    | ok u =>
      cases gc with
      | error e => simp
      | ok tok =>
        rcases hw : LogoutClient.logout_with_token store tok pW with
          ⟨r, s', n⟩
        cases r with
        | ok u2 => simp [hw]
        | error e => simp [hw]
  · intro tok store pW pC s' n hw
    unfold CekUnitClient.logout
    simp [hw]
  · intro tok store pW pC e s' n hw
    unfold CekUnitClient.logout
    simp [hw]
  · intro e gc store pW pC
    rfl
  · intro e store pW pC
    rfl

/-- Witness for `C10_top_level_logout`: a successful fresh-token logout on a
logged-in session clears the store with one logout request and no
fallback. -/
theorem C10_top_level_logout_witness :
    CekUnitClient.logout (.ok ()) (.ok "FRESH")
        (some ⟨[], "TOK", true, 0⟩) (fun _ => .resp 200 [] "")
        (fun _ => .netErr .RequestTimeout) =
      (.ok (), none, [1]) :=
  C10_top_level_logout.2.1 "FRESH" (some ⟨[], "TOK", true, 0⟩)
    (fun _ => .resp 200 [] "") (fun _ => .netErr .RequestTimeout) none 1 rfl
